import Mathlib

/-!
Shallow embedding of the `sparkanywhere` control plane (Go) in Lean 4.

The embedding follows the source files:
  * `k8s.go` (package `sparkanywhere`, the API shim): `K8S`, `Config`, `New`,
    `Run`/`deploy`, `createPod`, `getPods` (watch registration), `postPods`;
  * `provider_ecs.go`: the managed-service `WaitForTask` poll loop;
  * `main.go`: the top-level configuration/run sequence.

Pure translation conventions: Go maps are association lists with
assignment-overwrite semantics; Go channels of capacity `c` are lists of
pending items, where a send on a full channel blocks; a Go `panic` and a
blocking send are explicit constructors of the result type; Go `*string`
values are modelled as (address, pointee) pairs so that Go's `==` on them
(address comparison) is kept distinct from comparison of the pointees.
-/

namespace Sparkanywhere

/-- One entry of a container's `Env` list (`v1.EnvVar`): name and value. -/
structure EnvVar where
  name : String
  value : String
  deriving DecidableEq, Repr

/-- The fields of `v1.Container` that the shim reads: image, args, env. -/
structure Container where
  image : String
  args : List String
  env : List EnvVar
  deriving DecidableEq, Repr

/-- The fields of `v1.ObjectMeta` that the shim reads or writes. -/
structure ObjectMeta where
  name : String
  resourceVersion : String
  deriving DecidableEq, Repr

/-- The fields of `v1.PodStatus` that the shim writes: the phase. -/
structure PodStatus where
  phase : String
  deriving DecidableEq, Repr

/-- The fields of `v1.PodSpec` that the shim reads: the container list. -/
structure PodSpec where
  containers : List Container
  deriving DecidableEq, Repr

/-- A workload descriptor (`v1.Pod`) as read and written by the shim. -/
structure Pod where
  metadata : ObjectMeta
  spec : PodSpec
  status : PodStatus
  deriving DecidableEq, Repr

/-- Go struct `taskHandle { Name string; Id string }`. -/
structure TaskHandle where
  name : String
  id : String
  deriving DecidableEq, Repr

/-- Go map assignment `m[k] = v`: overwrite the binding of `k` if present,
otherwise add it.  Association lists keep keys unique, as Go maps do. -/
def envInsert : List (String × String) → String → String → List (String × String)
  | [], k, v => [(k, v)]
  | (k', v') :: rest, k, v =>
      if k' = k then (k, v) :: rest else (k', v') :: envInsert rest k v

/-- Go map read `m[k]`: the value bound to `k`, if any. -/
def envLookup : List (String × String) → String → Option String
  | [], _ => none
  | (k', v') :: rest, k => if k' = k then some v' else envLookup rest k

/-- Go struct `Task { Name, Image string; Args []string; Env map[string]string }`. -/
structure Task where
  name : String
  image : String
  args : List String
  env : List (String × String)
  deriving DecidableEq, Repr

/-- The `task.Env` built by `createPod` from a container's env list: each
variable is assigned its value, except that `SPARK_LOCAL_DIRS` is overridden
to `/tmp` (`k8s.go` lines 368–376). -/
def buildTaskEnv (env : List EnvVar) : List (String × String) :=
  env.foldl
    (fun m kv =>
      if kv.name = "SPARK_LOCAL_DIRS" then envInsert m kv.name "/tmp"
      else envInsert m kv.name kv.value)
    []

/-- The `Task` that `createPod` hands to the provider, built from the pod
name and its single container (`k8s.go` lines 362–376). -/
def buildTask (podName : String) (cc : Container) : Task :=
  { name := podName, image := cc.image, args := cc.args, env := buildTaskEnv cc.env }

/-- The value the client submitted for variable `key`: the last occurrence
in the env list wins, matching Go map-assignment order. -/
def submittedValue : List EnvVar → String → Option String
  | [], _ => none
  | kv :: rest, key =>
      match submittedValue rest key with
      | some v => some v
      | none => if kv.name = key then some kv.value else none

/-- Go struct `Event { Type string; Object interface{} }`; here the object
is always a pod descriptor. -/
structure Event where
  type : String
  object : Pod
  deriving DecidableEq, Repr

/-- Capacity of a watch subscriber's channel: `make(chan Event, 1000)` in
`getPods`. -/
def eventChanCapacity : Nat := 1000

/-- The mutable fields of the `K8S` struct touched by `createPod` and the
watch path: the pod list, the handle list, the subscriber channels (each a
list of pending events) and the resource-version counter.  All of them are
mutated only under `createLock`, so `createPod` is modelled as one atomic
step on this state. -/
structure K8S where
  pods : List Pod
  handles : List TaskHandle
  updateCh : List (List Event)
  resourceVersion : Nat
  deriving DecidableEq, Repr

/-- Outcome of one `createPod` call.  `panicked` is the Go `panic` (the
process terminates); `err` is an error return (`postPods` only logs it);
`blocked` is a send `ch <- event` on a full channel, which suspends the
goroutine while it still holds `createLock`. -/
inductive CreatePodResult where
  | panicked (msg : String) (k : K8S)
  | err (e : String) (k : K8S)
  | blocked (k : K8S)
  | ok (k : K8S) (ev : Event)
  deriving DecidableEq, Repr

/-- Sequential sends `ch <- event` over all subscriber channels
(`k8s.go` lines 401–403).  A send on a channel holding `eventChanCapacity`
pending events blocks the sender, so the fan-out as a whole blocks
(`none`); otherwise every channel receives the event appended. -/
def sendAll : List (List Event) → Event → Option (List (List Event))
  | [], _ => some []
  | q :: qs, ev =>
      if q.length < eventChanCapacity then
        (sendAll qs ev).map (fun rest => (q ++ [ev]) :: rest)
      else none

/-- Body of `createPod` after the resource-version increment, dispatching on
the pod's container list (`k8s.go` lines 354–405).  `prov` is the active
provider's `CreateTask`. -/
def createPodAux (prov : Task → Except String TaskHandle) (pod : Pod)
    (containers : List Container) (k : K8S) : CreatePodResult :=
  match containers with
  | [cc] =>
      let task := buildTask pod.metadata.name cc
      match prov task with
      | .error e => .err e k
      | .ok handle =>
          let handle := { handle with name := pod.metadata.name }
          let k := { k with handles := k.handles ++ [handle] }
          -- just put already as running
          let pod := { pod with status := { pod.status with phase := "Running" } }
          let k := { k with pods := k.pods ++ [pod] }
          -- DeepCopy, then stamp the post-increment resource version
          let pod := { pod with metadata :=
            { pod.metadata with resourceVersion := toString k.resourceVersion } }
          let ev : Event := { type := "ADDED", object := pod }
          match sendAll k.updateCh ev with
          | none => .blocked k
          | some chs => .ok { k with updateCh := chs } ev
  | _ => .panicked "only one container per pod is supported" k

/-- Translation of `createPod` (`k8s.go` lines 348–406): under `createLock`, increment
`resourceVersion`, panic unless the pod has exactly one container, build the
`Task`, call the provider, record the handle, mark the pod `Running`, append
it to the pod list, and broadcast an `ADDED` event carrying a copy stamped
with the new resource version. -/
def createPod (prov : Task → Except String TaskHandle) (pod : Pod) (k : K8S) :
    CreatePodResult :=
  createPodAux prov pod pod.spec.containers
    { k with resourceVersion := k.resourceVersion + 1 }

/-- The `ADDED` event produced by a `createPod` call, when it completed. -/
def createdEvent : CreatePodResult → Option Event
  | .ok _ ev => some ev
  | _ => none

/-- Sequential driver for several `createPod` calls (each `postPods` request
spawns one; `createLock` serializes them).  Each attempt carries the pod and
the provider outcome for that call.  An `err` outcome is only logged and the
loop continues; a panic kills the process and a blocked send stalls it, so
both end the run.  Returns the final state and the events broadcast. -/
def runCreates : List (Pod × Except String TaskHandle) → K8S → K8S × List Event
  | [], k => (k, [])
  | (pod, r) :: rest, k =>
      match createPod (fun _ => r) pod k with
      | .ok k' ev =>
          let out := runCreates rest k'
          (out.1, ev :: out.2)
      | .err _ k' => runCreates rest k'
      | .panicked _ k' => (k', [])
      | .blocked k' => (k', [])

/-- The `Config` struct fields used by `New`, `Run` and `deploy` (the ECS
sub-config only feeds provider construction, which is abstracted below). -/
structure Config where
  controlPlaneAddr : String
  ecsEnabled : Bool
  dockerEnabled : Bool
  instances : Nat
  deriving DecidableEq, Repr

/-- Which provider variant `New` instantiated. -/
inductive ProviderKind where
  | ecs
  | docker
  deriving DecidableEq, Repr

/-- Translation of `New` (`k8s.go` lines 136–160): reject both providers enabled at once,
otherwise construct the ECS provider when `EcsEnabled` and the Docker
provider in every other case.  The two constructors perform I/O, so their
outcomes are parameters. -/
def New (c : Config) (dockerCtor ecsCtor : Except String Unit) :
    Except String ProviderKind :=
  if c.ecsEnabled && c.dockerEnabled then
    .error "only one provider can be enabled"
  else if c.ecsEnabled then
    ecsCtor.map fun _ => ProviderKind.ecs
  else
    dockerCtor.map fun _ => ProviderKind.docker

/-- The provider operations `deploy` invokes, abstracted as functions. -/
structure DeployProv where
  create : Task → Except String TaskHandle
  wait : TaskHandle → Except String Unit

/-- The driver task built by `deploy` (`k8s.go` lines 206–214). -/
def driverTask (addr : String) (instances : Nat) : Task :=
  { name := "spark-pi"
    image := "apache/spark"
    args :=
      [ "/bin/bash", "-c"
      , "cd .. && ./bin/spark-submit --master k8s://http://" ++ addr
          ++ ":1323 --deploy-mode client --name spark-pi --class org.apache.spark.examples.SparkPi --conf spark.executor.instances="
          ++ toString instances
          ++ " --conf spark.kubernetes.container.image=apache/spark:latest ./examples/jars/spark-examples_2.12-3.5.0.jar" ]
    env := [] }

/-- Tail of `deploy` past the address check: create the driver task, attach
the name `spark-pi` to the handle, wait for completion (`k8s.go` lines
206–230; the handle-list append and log lines do not affect the returned
value and are elided). -/
def deployDriver (addr : String) (instances : Nat) (p : DeployProv) :
    Except String Unit :=
  match p.create (driverTask addr instances) with
  | .error e => .error e
  | .ok h => p.wait { h with name := "spark-pi" }

/-- Translation of `deploy` (`k8s.go` lines 196–231): in Docker mode overwrite the control
plane address with `host.docker.internal`, then fail if the address is
empty, then run the driver. -/
def deploy (c : Config) (p : DeployProv) : Except String Unit :=
  let c := if c.dockerEnabled then
    { c with controlPlaneAddr := "host.docker.internal" } else c
  if c.controlPlaneAddr = "" then
    .error "control plane public address is required"
  else
    deployDriver c.controlPlaneAddr c.instances p

/-- Observable milestones of one process run, in order. -/
inductive Step where
  | fatalConfigError (msg : String)
  | serverListening
  | runFailed (msg : String)
  | runCompleted
  deriving DecidableEq, Repr

/-- The process lifecycle from `main.go` and `Run` (`k8s.go` lines
162–165): `New` first — an error prints and exits non-zero before any
server activity; otherwise `Run` calls `initServer`, whose goroutine starts
the listener (`e.Start`, lines 278–280), and only then calls `deploy`. -/
def mainTrace (c : Config) (dockerCtor ecsCtor : Except String Unit)
    (p : DeployProv) : List Step :=
  match New c dockerCtor ecsCtor with
  | .error e => [.fatalConfigError e]
  | .ok _ =>
      match deploy c p with
      | .error e => [.serverListening, .runFailed e]
      | .ok _ => [.serverListening, .runCompleted]

/-- A Go `*string`: heap address plus pointee.  `aws.String(s)` allocates a
fresh address holding `s`. -/
structure StrPtr where
  addr : Nat
  val : String
  deriving DecidableEq, Repr

/-- Go `==` on two `*string` values compares the addresses, not the
pointees. -/
def ptrEq (a b : StrPtr) : Bool := a.addr == b.addr

/-- The ECS `WaitForTask` loop (`provider_ecs.go` lines 172–188) over a
finite trace of `DescribeTasks` poll results (an API error, or the reported
`LastStatus` string).  Each iteration materialises the response's
`LastStatus` pointer at a fresh address `a` and the literal
`aws.String("STOPPED")` at the next fresh address `a + 1`, then tests the
loop's exit condition `Tasks[0].LastStatus == aws.String("STOPPED")` — a Go
pointer comparison.  Between polls the loop sleeps one second
(`time.Sleep(1 * time.Second)`).  `none` means the trace was exhausted with
the loop still running. -/
def ecsWaitForTask : List (Except String String) → Nat → Option (Except String Unit)
  | [], _ => none
  | .error e :: _, _ => some (.error e)
  | .ok status :: rest, a =>
      if ptrEq ⟨a, status⟩ ⟨a + 1, "STOPPED"⟩ then some (.ok ())
      else ecsWaitForTask rest (a + 2)

/-- Modelled from the spec: `WaitForTask(handle)` polls at a fixed interval
until the backend reports the task "stopped", then returns nil; a poll
error propagates.  The comparison here is on the status value itself. -/
def ecsWaitForTaskSpec : List (Except String String) → Option (Except String Unit)
  | [] => none
  | .error e :: _ => some (.error e)
  | .ok status :: rest =>
      if status = "STOPPED" then some (.ok ())
      else ecsWaitForTaskSpec rest

/-- First poll error of a trace, if any; never a success. -/
def firstPollError : List (Except String String) → Option (Except String Unit)
  | [] => none
  | .error e :: _ => some (.error e)
  | .ok _ :: rest => firstPollError rest

/-- The pod as stored in the canonical list: phase forced to `Running`
(`k8s.go` line 389). -/
def runningPod (pod : Pod) : Pod :=
  { pod with status := { pod.status with phase := "Running" } }

/-- The deep-copied pod carried by the broadcast event: `Running` phase and
the server-assigned resource version (`k8s.go` lines 394–395). -/
def stampedPod (pod : Pod) (rv : Nat) : Pod :=
  { runningPod pod with metadata := { pod.metadata with resourceVersion := toString rv } }

/-- The `ADDED` event broadcast for a successfully created pod. -/
def stampedEvent (pod : Pod) (rv : Nat) : Event :=
  { type := "ADDED", object := stampedPod pod rv }

/-- Erase the server-assigned resource version of a descriptor. -/
def stripResourceVersion (p : Pod) : Pod :=
  { p with metadata := { p.metadata with resourceVersion := "" } }

/-- Whether a `createPod` call ended in a blocked channel send. -/
def isBlocked : CreatePodResult → Bool
  | .blocked _ => true
  | _ => false

/-- The `K8S` state at process start: empty lists, counter at zero. -/
def emptyK8S : K8S :=
  { pods := [], handles := [], updateCh := [], resourceVersion := 0 }

/-- A single-container sample pod, as a Spark executor submission. -/
def sampleContainer : Container :=
  { image := "apache/spark", args := ["executor"], env := [] }

/-- A sample client-submitted descriptor with one container. -/
def samplePod : Pod :=
  { metadata := { name := "spark-exec-1", resourceVersion := "" }
    spec := { containers := [sampleContainer] }
    status := { phase := "Pending" } }

/-- A provider whose `CreateTask` always succeeds with handle id `task-1`. -/
def okProvider : Task → Except String TaskHandle :=
  fun _ => .ok { name := "", id := "task-1" }

/-- A deploy-time provider whose calls always succeed. -/
def sampleDeployProv : DeployProv :=
  { create := fun _ => .ok { name := "", id := "driver-1" }
    wait := fun _ => .ok () }

/-- A state with one watch subscriber whose queue is full. -/
def fullQueueK8S : K8S :=
  { pods := [], handles := []
    updateCh := [List.replicate eventChanCapacity { type := "ADDED", object := samplePod }]
    resourceVersion := 5 }

/-- A state with one watch subscriber whose queue is empty. -/
def oneSubK8S : K8S :=
  { pods := [], handles := [], updateCh := [[]], resourceVersion := 0 }

theorem envLookup_envInsert (m : List (String × String)) (k v key : String) :
    envLookup (envInsert m k v) key = if key = k then some v else envLookup m key := by
  induction m with
  | nil =>
      by_cases h : key = k
      · simp [envInsert, envLookup, h]
      · simp [envInsert, envLookup, h, Ne.symm h]
  | cons hd tl ih =>
      obtain ⟨k', v'⟩ := hd
      by_cases hk : k' = k
      · subst hk
        by_cases h : key = k'
        · simp [envInsert, envLookup, h]
        · simp [envInsert, envLookup, h, Ne.symm h]
      · by_cases h : key = k'
        · subst h
          simp [envInsert, envLookup, hk]
        · simp [envInsert, envLookup, hk, h, ih, Ne.symm h]

theorem buildTaskEnv_foldl (env : List EnvVar) (m : List (String × String)) (key : String) :
    envLookup
      (env.foldl
        (fun m kv =>
          if kv.name = "SPARK_LOCAL_DIRS" then envInsert m kv.name "/tmp"
          else envInsert m kv.name kv.value)
        m) key
      = match submittedValue env key with
        | some v => some (if key = "SPARK_LOCAL_DIRS" then "/tmp" else v)
        | none => envLookup m key := by
  induction env generalizing m with
  | nil => simp [submittedValue]
  | cons kv rest ih =>
      rw [List.foldl_cons, ih]
      have hstep :
          envLookup
            (if kv.name = "SPARK_LOCAL_DIRS" then envInsert m kv.name "/tmp"
             else envInsert m kv.name kv.value) key
          = if key = kv.name
            then some (if key = "SPARK_LOCAL_DIRS" then "/tmp" else kv.value)
            else envLookup m key := by
        by_cases hname : kv.name = "SPARK_LOCAL_DIRS"
        · by_cases hkey : key = kv.name
          · simp [hname, envLookup_envInsert, hkey]
          · simp [hname, envLookup_envInsert, hkey, hname ▸ hkey]
        · by_cases hkey : key = kv.name
          · subst hkey
            simp [hname, envLookup_envInsert]
          · simp [hname, envLookup_envInsert, hkey]
      cases hrest : submittedValue rest key with
      | some v => simp [submittedValue, hrest]
      | none =>
          simp only [submittedValue, hrest, hstep]
          by_cases hkey : key = kv.name
          · simp [hkey]
          · simp [hkey, Ne.symm hkey]

theorem sendAll_of_lt (chs : List (List Event)) (ev : Event)
    (h : ∀ q ∈ chs, q.length < eventChanCapacity) :
    sendAll chs ev = some (chs.map (fun q => q ++ [ev])) := by
  induction chs with
  | nil => rfl
  | cons q qs ih =>
      have hq : q.length < eventChanCapacity := h q (by simp)
      have hrest := ih (fun q' hq' => h q' (by simp [hq']))
      simp [sendAll, hq, hrest]

theorem createPod_ok_of (prov : Task → Except String TaskHandle) (pod : Pod)
    (cc : Container) (h : TaskHandle) (k : K8S)
    (hc : pod.spec.containers = [cc])
    (hp : prov (buildTask pod.metadata.name cc) = .ok h)
    (hch : ∀ q ∈ k.updateCh, q.length < eventChanCapacity) :
    createPod prov pod k =
      .ok
        { pods := k.pods ++ [runningPod pod]
          handles := k.handles ++ [{ h with name := pod.metadata.name }]
          updateCh := k.updateCh.map (fun q => q ++ [stampedEvent pod (k.resourceVersion + 1)])
          resourceVersion := k.resourceVersion + 1 }
        (stampedEvent pod (k.resourceVersion + 1)) := by
  unfold createPod
  rw [hc]
  simp only [createPodAux, hp]
  rw [sendAll_of_lt _ _ hch]
  simp [runningPod, stampedPod, stampedEvent]

/-- C1 counterexample: submitting a descriptor with zero containers does not
produce a recoverable validation error — `createPod` panics (a
process-terminating fault), refuting the claim at this concrete input. -/
theorem createPod_zero_containers_panic_cex :
    createPod okProvider
      { metadata := { name := "spark-exec-0", resourceVersion := "" }
        spec := { containers := [] }
        status := { phase := "Pending" } } emptyK8S
      = .panicked "only one container per pod is supported"
          { pods := [], handles := [], updateCh := [], resourceVersion := 1 } := rfl

/-- C1 (amended): for every descriptor whose container list does not have
exactly one element, `createPod` panics with a fixed message — terminating
the process — after bumping the resource version and before touching any
other state; the outcome is the same for every provider, so
`Provider.CreateTask` is never called. -/
theorem createPod_not_one_container_panics
    (prov : Task → Except String TaskHandle) (pod : Pod) (k : K8S)
    (h : pod.spec.containers.length ≠ 1) :
    createPod prov pod k =
      .panicked "only one container per pod is supported"
        { k with resourceVersion := k.resourceVersion + 1 } := by
  unfold createPod
  rcases hc : pod.spec.containers with _ | ⟨c, _ | ⟨c2, t⟩⟩
  · rfl
  · rw [hc] at h
    simp at h
  · rfl

/-- C1 witness: a two-container descriptor panics, for a provider that
would have succeeded. -/
theorem createPod_not_one_container_panics_witness :
    ({ metadata := { name := "spark-exec-2", resourceVersion := "" }
       spec := { containers := [sampleContainer, sampleContainer] }
       status := { phase := "Pending" } } : Pod).spec.containers.length ≠ 1 ∧
    createPod okProvider
      { metadata := { name := "spark-exec-2", resourceVersion := "" }
        spec := { containers := [sampleContainer, sampleContainer] }
        status := { phase := "Pending" } } emptyK8S
      = .panicked "only one container per pod is supported"
          { emptyK8S with resourceVersion := emptyK8S.resourceVersion + 1 } :=
  ⟨by decide, createPod_not_one_container_panics _ _ _ (by decide)⟩

/-- C6: when the provider's `CreateTask` fails on the asynchronous path,
`createPod` returns the error (which `postPods` only logs): the pod list,
handle list and every subscriber queue are exactly as before the call, and
no event is broadcast — only the resource-version counter was consumed. -/
theorem createPod_provider_error_leaves_state
    (prov : Task → Except String TaskHandle) (pod : Pod) (cc : Container)
    (k : K8S) (e : String)
    (hc : pod.spec.containers = [cc])
    (hp : prov (buildTask pod.metadata.name cc) = .error e) :
    createPod prov pod k = .err e { k with resourceVersion := k.resourceVersion + 1 } := by
  unfold createPod
  rw [hc]
  simp [createPodAux, hp]

/-- C6 witness: a concrete failing provider leaves `emptyK8S`'s lists
untouched. -/
theorem createPod_provider_error_leaves_state_witness :
    samplePod.spec.containers = [sampleContainer] ∧
    createPod (fun _ => Except.error "launch failed") samplePod emptyK8S
      = .err "launch failed" { emptyK8S with resourceVersion := emptyK8S.resourceVersion + 1 } :=
  ⟨rfl, createPod_provider_error_leaves_state _ _ _ _ _ rfl rfl⟩

/-- C8: the task handed to the provider maps every container environment
variable to its submitted value, except that `SPARK_LOCAL_DIRS` always
receives `/tmp`; and `createPod` consults the provider only on exactly
`buildTask pod.metadata.name cc`, the task built from the single
container. -/
theorem createPod_env_spark_local_dirs :
    (∀ (podName : String) (cc : Container) (key : String),
      envLookup (buildTask podName cc).env key
        = (submittedValue cc.env key).map
            (fun v => if key = "SPARK_LOCAL_DIRS" then "/tmp" else v)) ∧
    (∀ (f g : Task → Except String TaskHandle) (pod : Pod) (cc : Container) (k : K8S),
      pod.spec.containers = [cc] →
      f (buildTask pod.metadata.name cc) = g (buildTask pod.metadata.name cc) →
      createPod f pod k = createPod g pod k) := by
  constructor
  · intro podName cc key
    have h := buildTaskEnv_foldl cc.env [] key
    cases hs : submittedValue cc.env key with
    | some v =>
        rw [hs] at h
        simpa [buildTask, buildTaskEnv] using h
    | none =>
        rw [hs] at h
        simpa [buildTask, buildTaskEnv, envLookup] using h
  · intro f g pod cc k hc hfg
    unfold createPod
    rw [hc]
    simp only [createPodAux]
    rw [hfg]

/-- C8 witness: a submitted `SPARK_LOCAL_DIRS=/var/data` is overridden to
`/tmp`, and two providers agreeing on the built task give the same
creation outcome. -/
theorem createPod_env_spark_local_dirs_witness :
    envLookup
      (buildTask "spark-exec-1"
        { image := "apache/spark", args := []
          env := [{ name := "SPARK_LOCAL_DIRS", value := "/var/data" },
                  { name := "FOO", value := "bar" }] }).env
      "SPARK_LOCAL_DIRS" = some "/tmp" ∧
    samplePod.spec.containers = [sampleContainer] ∧
    createPod okProvider samplePod emptyK8S = createPod okProvider samplePod emptyK8S := by
  refine ⟨?_, rfl, ?_⟩
  · exact (createPod_env_spark_local_dirs.1 "spark-exec-1" _ "SPARK_LOCAL_DIRS").trans (by decide)
  · exact createPod_env_spark_local_dirs.2 okProvider okProvider samplePod sampleContainer
      emptyK8S rfl rfl

/-- C9: with neither the ECS flag nor the Docker flag enabled, `New` does
not raise the configuration error: it takes the default branch and
constructs the local Docker provider. -/
theorem new_defaults_to_docker (c : Config) (dCtor eCtor : Except String Unit)
    (hecs : c.ecsEnabled = false) (hdocker : c.dockerEnabled = false) :
    New c dCtor eCtor = dCtor.map (fun _ => ProviderKind.docker) := by
  simp [New, hecs, hdocker]

/-- C9 witness: a flagless configuration yields the Docker provider. -/
theorem new_defaults_to_docker_witness :
    ({ controlPlaneAddr := "1.2.3.4", ecsEnabled := false, dockerEnabled := false
       instances := 1 } : Config).ecsEnabled = false ∧
    New { controlPlaneAddr := "1.2.3.4", ecsEnabled := false, dockerEnabled := false
          instances := 1 }
      (Except.ok ()) (Except.ok ()) = .ok ProviderKind.docker :=
  ⟨rfl, new_defaults_to_docker _ _ _ rfl rfl⟩

/-- C10: with the Docker provider enabled, `deploy` overwrites the
configured control-plane address with `host.docker.internal` before
building the driver task, so the user-supplied address does not appear on
the right-hand side at all and the missing-address check cannot fire. -/
theorem deploy_docker_forces_internal_addr (c : Config) (p : DeployProv)
    (h : c.dockerEnabled = true) :
    deploy c p = deployDriver "host.docker.internal" c.instances p := by
  simp [deploy, h]

/-- C10 witness: even an empty configured address deploys the driver at
`host.docker.internal` in Docker mode. -/
theorem deploy_docker_forces_internal_addr_witness :
    ({ controlPlaneAddr := "", ecsEnabled := false, dockerEnabled := true
       instances := 2 } : Config).dockerEnabled = true ∧
    deploy { controlPlaneAddr := "", ecsEnabled := false, dockerEnabled := true
             instances := 2 } sampleDeployProv
      = deployDriver "host.docker.internal" 2 sampleDeployProv :=
  ⟨rfl, deploy_docker_forces_internal_addr _ _ rfl⟩

/-- C3 (code bug): the managed-service `WaitForTask` can never observe
"STOPPED": its exit test compares the `*string` status pointer against the
freshly allocated `aws.String("STOPPED")` with Go `==`, an address
comparison that is false for distinct allocations.  So on every poll trace
the loop only ever ends by propagating a poll error — in particular it is
still looping after a poll that reports "STOPPED", where the dereferencing
comparison the spec describes (and that `CreateTask` uses for "RUNNING")
returns nil. -/
theorem ecsWaitForTask_never_sees_stopped :
    (∀ (polls : List (Except String String)) (a : Nat),
      ecsWaitForTask polls a = firstPollError polls) ∧
    ecsWaitForTask [Except.ok "STOPPED"] 0 = none ∧
    ecsWaitForTaskSpec [Except.ok "STOPPED"] = some (Except.ok ()) := by
  refine ⟨?_, rfl, rfl⟩
  intro polls
  induction polls with
  | nil => intro a; rfl
  | cons p rest ih =>
      intro a
      cases p with
      | error e => rfl
      | ok status =>
          have hne : ptrEq ⟨a, status⟩ ⟨a + 1, "STOPPED"⟩ = false := by
            simp [ptrEq]
          simp [ecsWaitForTask, hne, firstPollError, ih]

set_option maxRecDepth 8192 in
/-- C4 counterexample: with a registered subscriber whose queue already
holds `eventChanCapacity` events, a successful pod creation ends in a
blocked channel send inside the critical section — there is no drop-oldest
or disconnect policy. -/
theorem broadcast_full_queue_blocks_cex :
    isBlocked (createPod okProvider samplePod fullQueueK8S) = true := by
  simp [createPod, samplePod, createPodAux, okProvider, fullQueueK8S, buildTask,
        sendAll, eventChanCapacity, isBlocked]

/-- C4 (amended): subscriber queues are bounded at 1000 pending events, but
the broadcaster has no overflow policy: it performs plain blocking sends,
so whenever every registered queue is below capacity the `ADDED` event is
appended to each queue, and a full queue blocks pod creation (previous
theorem's counterexample). -/
theorem broadcast_bounded_no_overflow_policy :
    eventChanCapacity = 1000 ∧
    ∀ (prov : Task → Except String TaskHandle) (pod : Pod) (cc : Container)
      (h : TaskHandle) (k : K8S),
      pod.spec.containers = [cc] →
      prov (buildTask pod.metadata.name cc) = .ok h →
      (∀ q ∈ k.updateCh, q.length < eventChanCapacity) →
      createPod prov pod k =
        .ok
          { pods := k.pods ++ [runningPod pod]
            handles := k.handles ++ [{ h with name := pod.metadata.name }]
            updateCh := k.updateCh.map
              (fun q => q ++ [stampedEvent pod (k.resourceVersion + 1)])
            resourceVersion := k.resourceVersion + 1 }
          (stampedEvent pod (k.resourceVersion + 1)) :=
  ⟨rfl, fun prov pod cc h k hc hp hch => createPod_ok_of prov pod cc h k hc hp hch⟩

/-- C4 witness: with one under-capacity subscriber, the event lands in its
queue. -/
theorem broadcast_bounded_no_overflow_policy_witness :
    samplePod.spec.containers = [sampleContainer] ∧
    okProvider (buildTask samplePod.metadata.name sampleContainer)
      = .ok { name := "", id := "task-1" } ∧
    (∀ q ∈ oneSubK8S.updateCh, q.length < eventChanCapacity) ∧
    createPod okProvider samplePod oneSubK8S =
      .ok
        { pods := [runningPod samplePod]
          handles := [{ name := "spark-exec-1", id := "task-1" }]
          updateCh := [[stampedEvent samplePod 1]]
          resourceVersion := 1 }
        (stampedEvent samplePod 1) := by
  refine ⟨rfl, rfl, by decide, ?_⟩
  exact broadcast_bounded_no_overflow_policy.2 okProvider samplePod sampleContainer
    _ oneSubK8S rfl rfl (by decide)

/-- C5 counterexample: for a submitted pod in phase `Pending`, the `ADDED`
event's object with its resource version removed is not the submitted
descriptor — its status phase was rewritten to `Running`. -/
theorem event_object_differs_from_submitted_cex :
    createdEvent (createPod okProvider samplePod emptyK8S)
      = some (stampedEvent samplePod 1) ∧
    stripResourceVersion (stampedPod samplePod 1) ≠ samplePod :=
  ⟨rfl, by decide⟩

/-- C5 (amended): the `ADDED` event's object equals the submitted
descriptor with exactly two changes: the status phase is set to `Running`
and the metadata carries the server-assigned resource version; name and
spec are untouched. -/
theorem event_object_is_running_stamped_copy
    (prov : Task → Except String TaskHandle) (pod : Pod) (cc : Container)
    (h : TaskHandle) (k : K8S)
    (hc : pod.spec.containers = [cc])
    (hp : prov (buildTask pod.metadata.name cc) = .ok h)
    (hch : ∀ q ∈ k.updateCh, q.length < eventChanCapacity) :
    createdEvent (createPod prov pod k)
      = some
          { type := "ADDED"
            object :=
              { metadata := { name := pod.metadata.name
                              resourceVersion := toString (k.resourceVersion + 1) }
                spec := pod.spec
                status := { phase := "Running" } } } := by
  rw [createPod_ok_of prov pod cc h k hc hp hch]
  rfl

/-- C5 witness: the concrete sample pod's event object, stamped `1`. -/
theorem event_object_is_running_stamped_copy_witness :
    samplePod.spec.containers = [sampleContainer] ∧
    createdEvent (createPod okProvider samplePod emptyK8S)
      = some
          { type := "ADDED"
            object :=
              { metadata := { name := "spark-exec-1", resourceVersion := "1" }
                spec := samplePod.spec
                status := { phase := "Running" } } } :=
  ⟨rfl, event_object_is_running_stamped_copy okProvider samplePod sampleContainer
    _ emptyK8S rfl rfl (by decide)⟩

/-- C7 counterexample: an ECS configuration with an empty control-plane
address passes `New`, so `Run` starts the API shim listener first and the
missing-address configuration error is raised only afterwards — a run from
this configuration does reach the listening state. -/
theorem server_listens_before_addr_error_cex :
    mainTrace
      { controlPlaneAddr := "", ecsEnabled := true, dockerEnabled := false
        instances := 1 }
      (Except.ok ()) (Except.ok ()) sampleDeployProv
      = [Step.serverListening, Step.runFailed "control plane public address is required"] := rfl

/-- C7 (amended): the both-providers-enabled error is raised fatally by
`New` before the server ever listens, but the missing-address error is
raised by `deploy` only after `initServer` has started the listener, so it
does not precede listening. -/
theorem config_error_timing (c : Config) (dCtor eCtor : Except String Unit)
    (p : DeployProv) :
    (c.ecsEnabled = true → c.dockerEnabled = true →
      mainTrace c dCtor eCtor p = [Step.fatalConfigError "only one provider can be enabled"]) ∧
    (c.ecsEnabled = true → c.dockerEnabled = false → c.controlPlaneAddr = "" →
      eCtor = Except.ok () →
      mainTrace c dCtor eCtor p
        = [Step.serverListening, Step.runFailed "control plane public address is required"]) := by
  constructor
  · intro he hd
    simp [mainTrace, New, he, hd]
  · intro he hd ha hctor
    subst hctor
    simp [mainTrace, New, he, hd, deploy, ha, Except.map]

/-- C7 witness: with both flags set, `New` fails before any server step. -/
theorem config_error_timing_witness :
    ({ controlPlaneAddr := "10.0.0.1", ecsEnabled := true, dockerEnabled := true
       instances := 1 } : Config).ecsEnabled = true ∧
    mainTrace
      { controlPlaneAddr := "10.0.0.1", ecsEnabled := true, dockerEnabled := true
        instances := 1 }
      (Except.ok ()) (Except.ok ()) sampleDeployProv
      = [Step.fatalConfigError "only one provider can be enabled"] :=
  ⟨rfl, (config_error_timing _ _ _ _).1 rfl rfl⟩

/-- C2 counterexample: a creation attempt that fails at the provider still
consumes a resource version (`resourceVersion++` precedes the provider
call), so after one failed and one completed creation, the single
descriptor appended to the canonical list carries resource version 2, not
1 — the versions of completed creations have a gap. -/
theorem resource_version_gap_cex :
    (runCreates
        [(samplePod, Except.error "launch failed"),
         (samplePod, Except.ok { name := "", id := "task-1" })] emptyK8S).2.map
      (fun ev => ev.object.metadata.resourceVersion) = ["2"] ∧
    (runCreates
        [(samplePod, Except.error "launch failed"),
         (samplePod, Except.ok { name := "", id := "task-1" })] emptyK8S).1.pods
      = [runningPod samplePod] := by
  constructor <;> rfl

/-- C2 (amended): when no interleaved attempt fails at the provider (and no
subscriber is registered, so no send can block), the events broadcast for N
sequential creations carry exactly the resource versions
`counter+1, …, counter+N` in creation order — `1..N` from a fresh process.
A failed attempt still consumes a version, so with failures the completed
creations' versions keep strictly increasing but show gaps. -/
theorem runCreates_versions_sequential
    (attempts : List (Pod × Except String TaskHandle)) (k : K8S)
    (hok : ∀ a ∈ attempts, ∃ h, a.2 = Except.ok h)
    (hone : ∀ a ∈ attempts, a.1.spec.containers.length = 1)
    (hch : k.updateCh = []) :
    (runCreates attempts k).2.map (fun ev => ev.object.metadata.resourceVersion)
      = (List.range attempts.length).map
          (fun i => toString (k.resourceVersion + (i + 1))) := by
  induction attempts generalizing k with
  | nil => simp [runCreates]
  | cons a rest ih =>
      obtain ⟨pod, r⟩ := a
      obtain ⟨h, hr⟩ := hok _ (List.mem_cons_self _ _)
      simp only at hr
      subst hr
      obtain ⟨cc, hcc⟩ := List.length_eq_one.mp (hone _ (List.mem_cons_self _ _))
      have hco := createPod_ok_of (fun _ => Except.ok h) pod cc h k hcc rfl
        (by intro q hq; rw [hch] at hq; cases hq)
      simp only [runCreates, hco, List.map_cons]
      rw [ih _ (fun a ha => hok a (List.mem_cons_of_mem _ ha))
            (fun a ha => hone a (List.mem_cons_of_mem _ ha))
            (by simp [hch])]
      simp only [stampedEvent, stampedPod, runningPod, List.length_cons,
        List.range_succ_eq_map, List.map_cons, List.map_map, Nat.zero_add,
        Function.comp]
      congr 1
      apply List.map_congr_left
      intro i _
      congr 1
      omega

/-- C2 witness: two all-successful creations from a fresh state receive
versions 1 and 2 in order. -/
theorem runCreates_versions_sequential_witness :
    (∀ a ∈ [(samplePod, (Except.ok { name := "", id := "t1" } : Except String TaskHandle)),
            (samplePod, (Except.ok { name := "", id := "t2" } : Except String TaskHandle))],
       a.1.spec.containers.length = 1) ∧
    (runCreates
        [(samplePod, (Except.ok { name := "", id := "t1" } : Except String TaskHandle)),
         (samplePod, (Except.ok { name := "", id := "t2" } : Except String TaskHandle))] emptyK8S).2.map
      (fun ev => ev.object.metadata.resourceVersion)
      = (List.range 2).map (fun i => toString (emptyK8S.resourceVersion + (i + 1))) := by
  refine ⟨by decide, runCreates_versions_sequential _ _ ?_ (by decide) rfl⟩
  intro a ha
  simp only [List.mem_cons, List.not_mem_nil, or_false] at ha
  rcases ha with rfl | rfl
  · exact ⟨_, rfl⟩
  · exact ⟨_, rfl⟩

end Sparkanywhere
